import Mathlib

/-!
Verification of the caddy-pocketbase module: a shallow embedding of the
Caddyfile global-option parser (`caddyfile.go`, `parseGlobalOption`), the
admin API dispatcher (`handleAPIEndpoints`, `handleSuperuser`,
`handleSuperuserOTP`) and the lifecycle adapter (`app.go`, `Provision`,
`Start`, `Stop`), together with proofs about their behaviour.
-/

namespace CaddyPocketbase

/-- The `App` struct of `app.go`: the three user-settable configuration
fields (`Listen`, `DataDir`, `Origins`), plus two booleans standing for the
runtime pointer fields: `serveCaptured` models `pbServer != nil` (set by the
`OnServe` hook) and `started` models `errGroup != nil` (set by `Start`). -/
structure App where
  listen : String := ""
  dataDir : String := ""
  origins : List String := []
  serveCaptured : Bool := false
  started : Bool := false
deriving DecidableEq, Repr

/-! ## Caddyfile global-option parser (`caddyfile.go`, `parseGlobalOption`)

The dispenser walks the tokens of the `pocketbase { ... }` block one by one
(`d.NextBlock(0)` crosses line boundaries; `d.NextArg()` advances only when
the next token is on the same line).  We embed the block body as a list of
lines, each line a list of tokens, and the loop as `parseBlock` over the
remainder of the current line plus the remaining lines. -/

/-- A token of the dispenser's stream: its text and the (file) line it sits
on.  `d.NextArg()` succeeds exactly when the following token is on the same
line as the current one. -/
structure Tok where
  text : String
  line : Nat
deriving DecidableEq, Repr

/-- The `for d.NextBlock(0)` loop of `parseGlobalOption`, one token at a
time.  `data_dir` and `listen` call `d.NextArg()` (which fails when the
next token is absent or on a different line, giving `d.ArgErr()`); the
`origins` case appends `d.Val()` — the token currently under the cursor,
i.e. the subdirective name itself — and consumes no argument; any other
token is an unrecognized subdirective. -/
def parseBlock (app : App) : List Tok → Except String App
  | [] => .ok app
  | t :: rest =>
    if t.text = "data_dir" then
      match rest with
      | v :: rl =>
        if v.line = t.line then parseBlock { app with dataDir := v.text } rl
        else .error ("wrong argument count or unexpected line ending after '" ++ t.text ++ "'")
      | [] => .error ("wrong argument count or unexpected line ending after '" ++ t.text ++ "'")
    else if t.text = "listen" then
      match rest with
      | v :: rl =>
        if v.line = t.line then parseBlock { app with listen := v.text } rl
        else .error ("wrong argument count or unexpected line ending after '" ++ t.text ++ "'")
      | [] => .error ("wrong argument count or unexpected line ending after '" ++ t.text ++ "'")
    else if t.text = "origins" then
      parseBlock { app with origins := app.origins ++ [t.text] } rest
    else
      .error ("unrecognized subdirective '" ++ t.text ++ "'")

/-- The token stream of a block body given as lines of token texts: line
`i` contributes its tokens tagged with line number `i`. -/
def tokensOfLines (lines : List (List String)) : List Tok :=
  (lines.enum.map fun p => p.2.map fun s => Tok.mk s p.1).flatten

/-- `parseGlobalOption` of `caddyfile.go`, applied to the body of the
`pocketbase { ... }` block (after `d.Next()` has consumed the option name):
each element of `lines` is the token list of one line of the block. -/
def parseGlobalOption (lines : List (List String)) : Except String App :=
  parseBlock {} (tokensOfLines lines)

/-- C1: for the block `pocketbase { origins https://example.com }` the code
appends the literal token `origins` to `app.Origins` and then trips over the
origin value itself, rejecting it as an unrecognized subdirective; parsing
fails instead of succeeding with `Origins = ["https://example.com"]` as the
spec line `origins <origin> ...` promises. -/
theorem parseGlobalOption_origins_bug :
    parseGlobalOption [["origins", "https://example.com"]] =
      .error "unrecognized subdirective 'https://example.com'" ∧
    ∀ app : App, parseGlobalOption [["origins", "https://example.com"]] ≠ .ok app := by
  constructor
  · rfl
  · intro app h
    simp [parseGlobalOption, tokensOfLines, parseBlock] at h

/-! ## Admin API path dispatch (`caddyfile.go`, `handleAPIEndpoints`) -/

/-- Whether the first list is a prefix of the second (helper for
`strings.TrimPrefix`). -/
def hasPrefixList : List Char → List Char → Bool
  | [], _ => true
  | _ :: _, [] => false
  | p :: ps, c :: cs => p == c && hasPrefixList ps cs

/-- `strings.TrimPrefix`: remove `p` from the front of `s` when it is a
prefix, otherwise return `s` unchanged. -/
def trimLeading (s p : String) : String :=
  if hasPrefixList p.data s.data then ⟨s.data.drop p.data.length⟩ else s

/-- `strings.Split` with a one-character separator, over the character
list: splitting the empty list yields one empty field, and every separator
occurrence starts a new field. -/
def splitChar (sep : Char) : List Char → List (List Char)
  | [] => [[]]
  | c :: cs =>
    if c == sep then [] :: splitChar sep cs
    else
      match splitChar sep cs with
      | [] => [[c]]
      | t :: ts => (c :: t) :: ts

/-- `strings.Split(s, sep)` for a one-character separator. -/
def splitString (sep : Char) (s : String) : List String :=
  (splitChar sep s.data).map fun l => ⟨l⟩

/-- ASCII lower-casing of a string, character by character. -/
def strToLower (s : String) : String :=
  ⟨s.data.map Char.toLower⟩

/-- `strings.EqualFold` restricted to ASCII, as used on the literal path
segments `"superuser"` and `"otp"`: case-insensitive equality. -/
def eqFold (a b : String) : Bool :=
  strToLower a == strToLower b

/-- The segments `handleAPIEndpoints` computes:
`strings.Split(strings.TrimPrefix(r.URL.Path, "/pocketbase/"), "/")`. -/
def pathParts (path : String) : List String :=
  splitString '/' (trimLeading path "/pocketbase/")

/-- Where `handleAPIEndpoints` sends a request: the `/superuser` handler,
the `/superuser/{email}/otp` handler (carrying the raw middle segment as
the email), or the 404 fallthrough. -/
inductive Dispatch where
  | superuser : Dispatch
  | superuserOTP (email : String) : Dispatch
  | notFound : Dispatch
deriving DecidableEq, Repr

/-- The `switch` of `handleAPIEndpoints` over the split segments. -/
def dispatchParts (parts : List String) : Dispatch :=
  if parts.length = 1 && eqFold (parts.getD 0 "") "superuser" then
    .superuser
  else if parts.length = 3 && eqFold (parts.getD 0 "") "superuser"
      && eqFold (parts.getD 2 "") "otp" then
    .superuserOTP (parts.getD 1 "")
  else
    .notFound

/-- Path dispatch of `handleAPIEndpoints`: trim the `/pocketbase/` prefix,
split on `/`, and match the segment shape. -/
def dispatchPath (path : String) : Dispatch :=
  dispatchParts (pathParts path)

/-! ## Admin API handlers (`caddyfile.go`, `handleSuperuser` and
`handleSuperuserOTP`)

The PocketBase record layer the handlers call into
(`FindCachedCollectionByNameOrId`, `FindAuthRecordByEmail`, `Save`,
`Delete`, `core.NewOTP`) is an external collaborator; we embed the
`_superusers` collection as a list of records plus its OTP options, and let
an `Env` supply the outcomes of the external calls that can fail and the
sources of external nondeterminism (fresh record id, randomness). -/

/-- The `superuserRequest` struct decoded from the JSON body
(`email_address`, `password`; absent fields decode to `""`). -/
structure SuperuserRequest where
  emailAddress : String
  password : String
deriving DecidableEq, Repr

/-- An admin API request: method, URL path and the outcome of
`json.Decoder.Decode` on its body — `.error m` stands for a malformed body
with decoder message `m`, `.ok sr` for a well-formed one. -/
structure Request where
  method : String
  path : String
  body : Except String SuperuserRequest
deriving Repr

/-- A record of the `_superusers` auth collection: id, email, password. -/
structure Record where
  id : String
  email : String
  password : String
deriving DecidableEq, Repr

/-- The OTP options of the `_superusers` collection
(`Collection().OTP.Enabled` and `Collection().OTP.Length`). -/
structure OTPConfig where
  enabled : Bool
  length : Nat
deriving DecidableEq, Repr

/-- A persisted one-time-password record (`core.NewOTP` then
`SetCollectionRef`/`SetRecordRef`/`SetPassword`). -/
structure OTPRec where
  collectionRef : String
  recordRef : String
  password : String
deriving DecidableEq, Repr

/-- The embedded service's store as the handlers see it: the `_superusers`
records, that collection's id and OTP options, and the OTP records. -/
structure Store where
  superusers : List Record
  superusersCollectionId : String
  otp : OTPConfig
  otps : List OTPRec
deriving DecidableEq, Repr

/-- Outcomes of the external calls a handler makes, plus its sources of
nondeterminism: `findCollectionErr`, `saveErr`, `deleteErr` are the error
results (if any) of `FindCachedCollectionByNameOrId`, `Save` and `Delete`;
`freshId` is the id a newly created record receives; `seed` drives the
random string generator. -/
structure Env where
  findCollectionErr : Option String
  saveErr : Option String
  deleteErr : Option String
  freshId : String
  seed : Nat → Nat

/-- What a handler did: `ok w` is a nil error return where `w` records the
status passed to `WriteHeader` (`none` when the handler never called it, in
which case `net/http` defaults the status to 200); `apiError s m` is a
returned `caddy.APIError` with HTTP status `s`; `plainError m` is a
returned plain error (rendered as a 500 by the admin layer). -/
inductive HandlerResult where
  | ok (written : Option Nat) : HandlerResult
  | apiError (status : Nat) (msg : String) : HandlerResult
  | plainError (msg : String) : HandlerResult
deriving DecidableEq, Repr

/-- The HTTP status the client observes for a `HandlerResult`: an explicit
`WriteHeader` status, the `net/http` default 200 on a nil error with no
explicit header, the `caddy.APIError` status, or 500 for a plain error. -/
def effectiveStatus : HandlerResult → Nat
  | .ok (some s) => s
  | .ok none => 200
  | .apiError s _ => s
  | .plainError _ => 500

/-- Models the external `ozzo-validation` rule `is.EmailFormat` used by the
handlers (out of scope per the spec: an external validation helper).  Like
all ozzo string rules it treats the empty string as valid (only `Required`
rejects emptiness); otherwise it demands a single `@` with a non-empty
local part and a dotted non-empty domain. -/
def emailValid (s : String) : Bool :=
  s.data.isEmpty ||
    (match splitChar '@' s.data with
     | [lp, dom] => !lp.isEmpty && !dom.isEmpty && dom.contains '.'
     | _ => false)

/-- Models the external `security.RandomStringWithAlphabet(n, alphabet)` of
PocketBase: a string of `n` characters, each drawn from `alphabet` at an
index chosen by the randomness source. -/
def randomStringWithAlphabet (seed : Nat → Nat) (n : Nat) (alphabet : String) : String :=
  ⟨(List.range n).map fun i => alphabet.data.getD (seed i % alphabet.data.length) 'x'⟩

/-- `FindAuthRecordByEmail` on the `_superusers` collection: the record
whose email equals the argument, or an error (here `none`) if absent. -/
def findByEmail (store : Store) (email : String) : Option Record :=
  store.superusers.find? fun r => r.email == email

/-- `handleSuperuser` of `caddyfile.go`: decode the body (400 on failure),
validate the email (400 on failure), then switch on the method — POST
creates (201), DELETE treats a missing record as a nil-error return with no
explicit status, PUT upserts (200), PATCH updates the password (200), and
any other method gets a 405 `caddy.APIError`. -/
def handleSuperuser (env : Env) (store : Store) (r : Request) : HandlerResult × Store :=
  match r.body with
  | .error e => (.apiError 400 ("payload unintelligible: " ++ e), store)
  | .ok sr =>
    if !emailValid sr.emailAddress then
      (.apiError 400 "invalid or missing email address", store)
    else if r.method == "POST" then
      match env.findCollectionErr with
      | some e => (.plainError ("Failed to fetch \x22_superusers\x22 collection: " ++ e ++ "."), store)
      | none =>
        match env.saveErr with
        | some e => (.plainError ("Failed to create new superuser account: " ++ e ++ "."), store)
        | none =>
          (.ok (some 201),
            { store with superusers :=
                store.superusers ++ [⟨env.freshId, sr.emailAddress, sr.password⟩] })
    else if r.method == "DELETE" then
      match findByEmail store sr.emailAddress with
      | none => (.ok none, store)
      | some rec =>
        match env.deleteErr with
        | some e => (.plainError ("Failed to delete superuser \x22" ++ rec.email ++ "\x22: " ++ e ++ "."), store)
        | none =>
          (.ok (some 200),
            { store with superusers := store.superusers.filter fun x => x.id != rec.id })
    else if r.method == "PUT" then
      match env.findCollectionErr with
      | some e => (.plainError ("Failed to fetch \x22_superusers\x22 collection: " ++ e ++ "."), store)
      | none =>
        match env.saveErr with
        | some e => (.plainError ("Failed to upsert superuser account: " ++ e ++ "."), store)
        | none =>
          match findByEmail store sr.emailAddress with
          | some rec =>
            (.ok (some 200),
              { store with superusers := store.superusers.map fun x =>
                  if x.id == rec.id then { x with email := sr.emailAddress, password := sr.password } else x })
          | none =>
            (.ok (some 200),
              { store with superusers :=
                  store.superusers ++ [⟨env.freshId, sr.emailAddress, sr.password⟩] })
    else if r.method == "PATCH" then
      match findByEmail store sr.emailAddress with
      | none => (.plainError ("Superuser with email \x22" ++ sr.emailAddress ++ "\x22 doesn't exist."), store)
      | some rec =>
        match env.saveErr with
        | some e => (.plainError ("Failed to change superuser \x22" ++ rec.email ++ "\x22 password: " ++ e ++ "."), store)
        | none =>
          (.ok (some 200),
            { store with superusers := store.superusers.map fun x =>
                if x.id == rec.id then { x with password := sr.password } else x })
    else
      (.apiError 405 "", store)

/-- `handleSuperuserOTP` of `caddyfile.go`: 405 unless POST; 400 on an
empty or invalid email segment; 404 when no superuser has that email; a
plain error when the collection disables OTP; otherwise generate a random
password over the alphabet `"1234567890"` of the collection-configured
length, persist it as an OTP record, and answer 200.  The request body is
never read. -/
def handleSuperuserOTP (middle : String) (env : Env) (store : Store) (r : Request) :
    HandlerResult × Store :=
  if r.method != "POST" then
    (.apiError 405 "", store)
  else if middle.data.isEmpty || !emailValid middle then
    (.apiError 400 "invalid or missing email address", store)
  else
    match findByEmail store middle with
    | none => (.apiError 404 ("Superuser with email \x22" ++ middle ++ "\x22 doesn't exist."), store)
    | some rec =>
      if !store.otp.enabled then
        (.plainError "OTP is not enabled for the _superusers collection.", store)
      else
        match env.saveErr with
        | some e => (.plainError ("Failed to create OTP: " ++ e), store)
        | none =>
          (.ok (some 200),
            { store with otps := store.otps ++
                [⟨store.superusersCollectionId, rec.id,
                  randomStringWithAlphabet env.seed store.otp.length "1234567890"⟩] })

/-- `handleAPIEndpoints` of `caddyfile.go`: dispatch on the path shape and
delegate; unmatched paths get a 404 `caddy.APIError`. -/
def handleAPIEndpoints (env : Env) (store : Store) (r : Request) : HandlerResult × Store :=
  match dispatchPath r.path with
  | .superuser => handleSuperuser env store r
  | .superuserOTP email => handleSuperuserOTP email env store r
  | .notFound => (.apiError 404 ("resource not found: " ++ r.path), store)

/-! ## Lifecycle adapter (`app.go`: `Provision`, `Start`, `Stop`)

The effectful collaborators (`os.MkdirAll`, `net.Listen`, `Bootstrap`,
`Shutdown`, `errgroup.Wait`, the `OnTerminate` trigger) are external; a
`ProvisionEnv` supplies their outcomes and `stopApp` takes the three
shutdown-phase outcomes as arguments. -/

/-- A Go error value: either a simple error or the result of
`errors.Join`, which wraps the list of its non-nil arguments. -/
inductive GoErr where
  | simple (msg : String) : GoErr
  | joined (errs : List GoErr) : GoErr

/-- Go's `errors.Join(a, b)` on two possibly-nil errors: nil when both are
nil, otherwise an error wrapping the non-nil ones in order. -/
def goJoin2 : Option GoErr → Option GoErr → Option GoErr
  | none, none => none
  | a, b => some (.joined (a.toList ++ b.toList))

/-- `ErrIn e r`: `errors.Is`-style containment — `e` is `r` itself or is
reachable from `r` by unwrapping joined errors. -/
inductive ErrIn : GoErr → GoErr → Prop
  | refl (e : GoErr) : ErrIn e e
  | within {e t : GoErr} {l : List GoErr} : t ∈ l → ErrIn e t → ErrIn e (.joined l)

/-- Models Go's `filepath.Join(root, sub)` for the well-formed paths in
play: `sub` alone when `root` is empty, otherwise `root ++ "/" ++ sub`. -/
def joinPath (root sub : String) : String :=
  if root = "" then sub else root ++ "/" ++ sub

/-- Outcomes of the external calls `Provision` makes: the error (if any)
of `os.MkdirAll`, of `net.Listen("tcp", "127.0.0.1:0")`, and of
`pb.Bootstrap()`; `storageRoot` is `caddy.DefaultStorage.Path` and
`ephemeralPort` the port the kernel assigns to the throwaway loopback
listener (its address string is `127.0.0.1:<port>`). -/
structure ProvisionEnv where
  storageRoot : String
  mkdirErr : Option String
  listenErr : Option String
  ephemeralPort : Nat
  bootstrapErr : Option String
deriving Repr

/-- `Provision` of `app.go`.  When `DataDir` is empty it is set to
`filepath.Join(storageRoot, "pb_data")` and `os.MkdirAll` is invoked on it
(failure wraps the error); when `Listen` is empty a throwaway loopback
listener supplies the address (failure wraps the error); then the
PocketBase app is bootstrapped (failure is returned as-is) and the
`OnServe` hook is registered.  The first component records the path
`MkdirAll` was invoked on, when it was invoked at all. -/
def provision (env : ProvisionEnv) (a : App) : Option String × Except GoErr App :=
  if a.dataDir = "" then
    match env.mkdirErr with
    | some e =>
      (some (joinPath env.storageRoot "pb_data"),
        .error (.simple ("not able to create data_dir: " ++ e)))
    | none =>
      (some (joinPath env.storageRoot "pb_data"),
        provisionAfterDataDir env { a with dataDir := joinPath env.storageRoot "pb_data" })
  else
    (none, provisionAfterDataDir env a)
where
  /-- The listen-resolution and bootstrap steps of `Provision`. -/
  provisionAfterDataDir (env : ProvisionEnv) (a : App) : Except GoErr App :=
    if a.listen = "" then
      match env.listenErr with
      | some e => .error (.simple ("not able to fine free port: " ++ e))
      | none => provisionAfterListen env { a with listen := "127.0.0.1:" ++ toString env.ephemeralPort }
    else
      provisionAfterListen env a
  /-- The bootstrap step of `Provision`. -/
  provisionAfterListen (env : ProvisionEnv) (a : App) : Except GoErr App :=
    match env.bootstrapErr with
    | some e => .error (.simple e)
    | none => .ok { a with serveCaptured := false, started := false }

/-- `Start` of `app.go`: assign a fresh `errgroup.Group`, launch the serve
goroutine, and return nil immediately. -/
def startApp (a : App) : App × Option GoErr :=
  ({ a with started := true }, none)

/-- The `OnServe` hook registered during `Provision` firing: the embedded
server object is captured into `a.pbServer`. -/
def onServeFired (a : App) : App :=
  { a with serveCaptured := true }

/-- What a call to `Stop` does: crash with a runtime panic, or return a
(possibly nil) error value. -/
inductive StopOutcome where
  | panicked (reason : String) : StopOutcome
  | returned (e : Option GoErr) : StopOutcome

/-- `Stop` of `app.go`: `a.pbServer.Shutdown(a.ctx)` dereferences
`pbServer` (nil until the `OnServe` hook fired — a panic), then
`a.errGroup.Wait()` dereferences `errGroup` (nil until `Start` ran — a
panic), and the three outcomes — shutdown error, the goroutine's error
from `Wait`, and the `OnTerminate` trigger's error — are combined with
`errors.Join(errors.Join(shutdownErr, waitErr), termErr)`.  None of the
configuration fields is written.  The three outcomes are external inputs. -/
def stopApp (a : App) (shutdownErr waitErr termErr : Option GoErr) : StopOutcome × App :=
  if a.serveCaptured = false then
    (.panicked "nil pointer dereference: pbServer", a)
  else if a.started = false then
    (.panicked "nil pointer dereference: errGroup", a)
  else
    (.returned (goJoin2 (goJoin2 shutdownErr waitErr) termErr), a)

/-! ## Sample instances used by concrete evaluations -/

/-- A handler environment in which no external call fails: fresh records
get id `"id9"` and the randomness source always yields 0. -/
def sampleEnv : Env :=
  ⟨none, none, none, "id9", fun _ => 0⟩

/-- A store holding one superuser `a@b.com`, with OTP enabled at length 3. -/
def sampleStore : Store :=
  ⟨[⟨"id1", "a@b.com", "pw"⟩], "c1", ⟨true, 3⟩, []⟩

/-- A provisioning environment in which no external call fails. -/
def sampleProvisionEnv : ProvisionEnv :=
  ⟨"/var/lib/caddy", none, none, 45321, none⟩

/-- The adapter state after a successful `Provision` of the empty
configuration in `sampleProvisionEnv`, before `Start`. -/
def provisionedApp : App :=
  match (provision sampleProvisionEnv {}).2 with
  | .ok a => a
  | .error _ => {}

/-- The adapter state once `Start` has run and the `OnServe` hook has
fired. -/
def runningApp : App :=
  onServeFired (startApp provisionedApp).1

/-! ## Helper lemmas -/

/-- A string with a non-empty right part of an append is non-empty. -/
theorem append_ne_nil_right (s t : String) (h : t ≠ "") : s ++ t ≠ "" := by
  intro heq
  apply h
  apply String.ext
  have hd := congrArg String.data heq
  simp only [String.data_append] at hd
  simpa using (List.append_eq_nil.mp hd).2

/-- A string with a non-empty left part of an append is non-empty. -/
theorem append_ne_nil_left (s t : String) (h : s ≠ "") : s ++ t ≠ "" := by
  intro heq
  apply h
  apply String.ext
  have hd := congrArg String.data heq
  simp only [String.data_append] at hd
  simpa using (List.append_eq_nil.mp hd).1

/-- The derived default data directory is never the empty string. -/
theorem joinPath_pbdata_ne_nil (root : String) : joinPath root "pb_data" ≠ "" := by
  unfold joinPath
  split
  · decide
  · exact append_ne_nil_right _ _ (by decide)

/-- `Stop` writes none of the adapter's fields: the state it returns is
the state it was given, in every branch. -/
theorem stopApp_state (a : App) (e1 e2 e3 : Option GoErr) :
    (stopApp a e1 e2 e3).2 = a := by
  unfold stopApp
  split
  · rfl
  · split <;> rfl

/-- A non-nil left argument of `errors.Join` is contained in the result. -/
theorem goJoin2_some_left (b : Option GoErr) (e : GoErr) :
    ∃ r, goJoin2 (some e) b = some r ∧ ErrIn e r := by
  rcases b with _ | y
  · exact ⟨.joined [e], rfl, .within (by simp) (.refl e)⟩
  · exact ⟨.joined [e, y], rfl, .within (by simp) (.refl e)⟩

/-- A non-nil right argument of `errors.Join` is contained in the result. -/
theorem goJoin2_some_right (a : Option GoErr) (e : GoErr) :
    ∃ r, goJoin2 a (some e) = some r ∧ ErrIn e r := by
  rcases a with _ | x
  · exact ⟨.joined [e], rfl, .within (by simp) (.refl e)⟩
  · exact ⟨.joined [x, e], rfl, .within (by simp) (.refl e)⟩

/-- An error contained in a non-nil argument of `errors.Join` is contained
in the result. -/
theorem goJoin2_mono_left {a : Option GoErr} {e r : GoErr} (h : a = some r)
    (hin : ErrIn e r) (b : Option GoErr) :
    ∃ s, goJoin2 a b = some s ∧ ErrIn e s := by
  subst h
  rcases b with _ | y
  · exact ⟨.joined [r], rfl, .within (by simp) hin⟩
  · exact ⟨.joined [r, y], rfl, .within (by simp) hin⟩

/-! ## Claims -/

/-- C2, counterexample: on the instance `Provision` just built (`Start`
never invoked), `Stop` dereferences the nil `pbServer` and panics; it does
not return any error value. -/
theorem stopBeforeStart_cex :
    (stopApp provisionedApp none none none).1 = .panicked "nil pointer dereference: pbServer" ∧
    ∀ e : Option GoErr, (stopApp provisionedApp none none none).1 ≠ .returned e := by
  refine ⟨rfl, fun e h => ?_⟩
  rw [show (stopApp provisionedApp none none none).1
      = .panicked "nil pointer dereference: pbServer" from rfl] at h
  exact StopOutcome.noConfusion h

/-- C2, amended: calling `Stop` on an adapter instance on which `Start`
has not been invoked (so the `OnServe` hook never captured the embedded
server) crashes with a nil-pointer dereference instead of returning an
error value. -/
theorem stopBeforeStart_panics (a : App) (h : a.serveCaptured = false)
    (e1 e2 e3 : Option GoErr) :
    stopApp a e1 e2 e3 = (.panicked "nil pointer dereference: pbServer", a) := by
  simp [stopApp, h]

/-- C2, witness: the amended claim at the freshly provisioned instance. -/
theorem stopBeforeStart_panics_witness :
    provisionedApp.serveCaptured = false ∧
    stopApp provisionedApp none none none
      = (.panicked "nil pointer dereference: pbServer", provisionedApp) :=
  ⟨rfl, stopBeforeStart_panics provisionedApp rfl none none none⟩

/-- C3, counterexample: a POST to `/pocketbase/superuser/a@b.com/otp`
whose body is malformed JSON succeeds with 200 — `handleSuperuserOTP`
never reads the body — refuting the claim that all five operations answer
400 on a malformed body. -/
theorem malformedBody_cex :
    (handleAPIEndpoints sampleEnv sampleStore
        ⟨"POST", "/pocketbase/superuser/a@b.com/otp", .error "unexpected EOF"⟩).1
      = .ok (some 200) ∧
    ∀ m : String,
      (handleAPIEndpoints sampleEnv sampleStore
          ⟨"POST", "/pocketbase/superuser/a@b.com/otp", .error "unexpected EOF"⟩).1
        ≠ .apiError 400 m := by
  refine ⟨by decide, fun m h => ?_⟩
  rw [show (handleAPIEndpoints sampleEnv sampleStore
      ⟨"POST", "/pocketbase/superuser/a@b.com/otp", .error "unexpected EOF"⟩).1
      = .ok (some 200) from by decide] at h
  exact HandlerResult.noConfusion h

/-- C3, amended: the four `/superuser` operations (POST, PUT, PATCH,
DELETE) answer 400 with a message describing the parse failure when the
body is malformed JSON; the OTP operation never reads the request body, so
its outcome does not depend on the body at all. -/
theorem malformedBody400 (env : Env) (store : Store) (e : String)
    (email p m' : String) (b b' : Except String SuperuserRequest) :
    ((handleAPIEndpoints env store ⟨"POST", "/pocketbase/superuser", .error e⟩).1
        = .apiError 400 ("payload unintelligible: " ++ e)) ∧
    ((handleAPIEndpoints env store ⟨"PUT", "/pocketbase/superuser", .error e⟩).1
        = .apiError 400 ("payload unintelligible: " ++ e)) ∧
    ((handleAPIEndpoints env store ⟨"PATCH", "/pocketbase/superuser", .error e⟩).1
        = .apiError 400 ("payload unintelligible: " ++ e)) ∧
    ((handleAPIEndpoints env store ⟨"DELETE", "/pocketbase/superuser", .error e⟩).1
        = .apiError 400 ("payload unintelligible: " ++ e)) ∧
    (handleSuperuserOTP email env store ⟨m', p, b⟩
        = handleSuperuserOTP email env store ⟨m', p, b'⟩) :=
  ⟨rfl, rfl, rfl, rfl, rfl⟩

/-- C4, counterexample: a GET to `/pocketbase/superuser` — an unsupported
method on a matched path — with a malformed body answers 400, not 405,
because the body is decoded before the method is dispatched. -/
theorem unsupportedMethod_cex :
    (handleAPIEndpoints sampleEnv sampleStore
        ⟨"GET", "/pocketbase/superuser", .error "unexpected EOF"⟩).1
      = .apiError 400 "payload unintelligible: unexpected EOF" ∧
    (handleAPIEndpoints sampleEnv sampleStore
        ⟨"GET", "/pocketbase/superuser", .error "unexpected EOF"⟩).1
      ≠ .apiError 405 "" := by
  exact ⟨rfl, by decide⟩

/-- C4, amended: an unsupported method on `/superuser` answers 405 only
once the body has decoded and the email has passed validation; on
`/superuser/{email}/otp` any method other than POST answers 405
unconditionally (the method is checked first). -/
theorem unsupportedMethod405 (env : Env) (store : Store) (sr : SuperuserRequest) (m : String)
    (hv : emailValid sr.emailAddress = true)
    (h1 : m ≠ "POST") (h2 : m ≠ "DELETE") (h3 : m ≠ "PUT") (h4 : m ≠ "PATCH") :
    (handleAPIEndpoints env store ⟨m, "/pocketbase/superuser", .ok sr⟩).1 = .apiError 405 "" ∧
    ∀ (p email m' : String) (b : Except String SuperuserRequest),
      m' ≠ "POST" → (handleSuperuserOTP email env store ⟨m', p, b⟩).1 = .apiError 405 "" := by
  constructor
  · have hd : dispatchPath "/pocketbase/superuser" = .superuser := rfl
    simp [handleAPIEndpoints, hd, handleSuperuser, hv, h1, h2, h3, h4]
  · intro p email m' b hm
    simp [handleSuperuserOTP, hm]

/-- C4, witness: the amended claim at a GET with a well-formed body and a
valid email, on both paths. -/
theorem unsupportedMethod405_witness :
    emailValid "a@b.com" = true ∧
    (handleAPIEndpoints sampleEnv sampleStore
        ⟨"GET", "/pocketbase/superuser", .ok ⟨"a@b.com", "pw"⟩⟩).1 = .apiError 405 "" ∧
    (handleSuperuserOTP "a@b.com" sampleEnv sampleStore
        ⟨"GET", "/pocketbase/superuser/a@b.com/otp", .ok ⟨"", ""⟩⟩).1 = .apiError 405 "" :=
  ⟨by decide,
   (unsupportedMethod405 sampleEnv sampleStore ⟨"a@b.com", "pw"⟩ "GET" (by decide)
      (by decide) (by decide) (by decide) (by decide)).1,
   (unsupportedMethod405 sampleEnv sampleStore ⟨"a@b.com", "pw"⟩ "GET" (by decide)
      (by decide) (by decide) (by decide) (by decide)).2
     "/pocketbase/superuser/a@b.com/otp" "a@b.com" "GET" (.ok ⟨"", ""⟩) (by decide)⟩

/-- The characters of a generated random string, as a mapped range. -/
theorem randomString_data (seed : Nat → Nat) (n : Nat) (alphabet : String) :
    (randomStringWithAlphabet seed n alphabet).data =
      (List.range n).map fun i => alphabet.data.getD (seed i % alphabet.data.length) 'x' :=
  rfl

/-- The generated random string has exactly the requested length. -/
theorem randomString_length (seed : Nat → Nat) (n : Nat) (alphabet : String) :
    (randomStringWithAlphabet seed n alphabet).length = n := by
  show (randomStringWithAlphabet seed n alphabet).data.length = n
  rw [randomString_data]
  simp

/-- Every character of a random string over the alphabet `"1234567890"`
is a decimal digit. -/
theorem randomString_digits (seed : Nat → Nat) (n : Nat) :
    ∀ c ∈ (randomStringWithAlphabet seed n "1234567890").data, c.isDigit = true := by
  intro c hc
  rw [randomString_data] at hc
  simp only [List.mem_map, List.mem_range] at hc
  obtain ⟨i, _, rfl⟩ := hc
  have hlt : seed i % "1234567890".data.length < 10 := by
    have h10 : "1234567890".data.length = 10 := by decide
    rw [h10]
    exact Nat.mod_lt _ (by decide)
  exact (by decide : ∀ j, j < 10 → ("1234567890".data.getD j 'x').isDigit = true) _ hlt

/-- C5: whenever `handleSuperuserOTP` succeeds (nil error, explicit 200),
the store gained exactly one OTP record, whose password has the
collection-configured length and consists solely of decimal digits. -/
theorem otpPasswordDigits (email : String) (env : Env) (store : Store) (r : Request)
    (store' : Store)
    (h : handleSuperuserOTP email env store r = (.ok (some 200), store')) :
    ∃ o : OTPRec, store'.otps = store.otps ++ [o] ∧
      o.password.length = store.otp.length ∧
      ∀ c ∈ o.password.data, c.isDigit = true := by
  unfold handleSuperuserOTP at h
  split at h
  · simp at h
  · split at h
    · simp at h
    · split at h
      · simp at h
      · split at h
        · simp at h
        · split at h
          · simp at h
          · have h2 := congrArg Prod.snd h
            simp only at h2
            subst h2
            exact ⟨_, rfl, randomString_length env.seed store.otp.length "1234567890",
              randomString_digits env.seed store.otp.length⟩

/-- C5, witness: the theorem at a concrete successful OTP request. -/
theorem otpPasswordDigits_witness :
    (handleSuperuserOTP "a@b.com" sampleEnv sampleStore
        ⟨"POST", "/pocketbase/superuser/a@b.com/otp", .ok ⟨"", ""⟩⟩
      = (.ok (some 200), { sampleStore with otps := [⟨"c1", "id1", "111"⟩] })) ∧
    ∃ o : OTPRec,
      ({ sampleStore with otps := [⟨"c1", "id1", "111"⟩] } : Store).otps
          = sampleStore.otps ++ [o] ∧
      o.password.length = sampleStore.otp.length ∧
      ∀ c ∈ o.password.data, c.isDigit = true :=
  ⟨by decide,
   otpPasswordDigits "a@b.com" sampleEnv sampleStore
     ⟨"POST", "/pocketbase/superuser/a@b.com/otp", .ok ⟨"", ""⟩⟩
     { sampleStore with otps := [⟨"c1", "id1", "111"⟩] } (by decide)⟩

/-- C6: a DELETE of `/superuser` with a well-formed body and a valid email
for which no account exists returns a nil error without writing a header
(so the client sees the default 200) and leaves the store unchanged. -/
theorem deleteIdempotent (env : Env) (store : Store) (email pw : String)
    (hv : emailValid email = true) (hn : findByEmail store email = none) :
    handleAPIEndpoints env store ⟨"DELETE", "/pocketbase/superuser", .ok ⟨email, pw⟩⟩
      = (.ok none, store) ∧
    effectiveStatus (.ok none) = 200 := by
  constructor
  · have hd : dispatchPath "/pocketbase/superuser" = .superuser := rfl
    simp [handleAPIEndpoints, hd, handleSuperuser, hv, hn]
  · rfl

/-- C6, witness: deleting the absent account `zz@b.com` from the sample
store. -/
theorem deleteIdempotent_witness :
    emailValid "zz@b.com" = true ∧
    handleAPIEndpoints sampleEnv sampleStore
        ⟨"DELETE", "/pocketbase/superuser", .ok ⟨"zz@b.com", ""⟩⟩
      = (.ok none, sampleStore) :=
  ⟨by decide,
   (deleteIdempotent sampleEnv sampleStore "zz@b.com" "" (by decide) (by decide)).1⟩

/-- C7: on a running instance, `Stop` returns the
`errors.Join(errors.Join(shutdownErr, waitErr), termErr)` combination; the
combination is nil exactly when all three outcomes are nil, and every
failure that occurred is contained (in the `errors.Is` sense) in the
returned error — no failure is discarded. -/
theorem stopAggregates (a : App) (hs : a.serveCaptured = true) (hg : a.started = true)
    (e1 e2 e3 : Option GoErr) :
    (stopApp a e1 e2 e3).1 = .returned (goJoin2 (goJoin2 e1 e2) e3) ∧
    (goJoin2 (goJoin2 e1 e2) e3 = none ↔ e1 = none ∧ e2 = none ∧ e3 = none) ∧
    ∀ e : GoErr, (e1 = some e ∨ e2 = some e ∨ e3 = some e) →
      ∃ r : GoErr, goJoin2 (goJoin2 e1 e2) e3 = some r ∧ ErrIn e r := by
  refine ⟨by simp [stopApp, hs, hg], ?_, ?_⟩
  · rcases e1 with _ | x <;> rcases e2 with _ | y <;> rcases e3 with _ | z <;> simp [goJoin2]
  · intro e he
    rcases he with h1 | h2 | h3
    · subst h1
      obtain ⟨r, hr, hin⟩ := goJoin2_some_left e2 e
      exact goJoin2_mono_left hr hin e3
    · subst h2
      obtain ⟨r, hr, hin⟩ := goJoin2_some_right e1 e
      exact goJoin2_mono_left hr hin e3
    · subst h3
      exact goJoin2_some_right (goJoin2 e1 e2) e

/-- C7, witness: the theorem at the running sample instance with all three
phases failing. -/
theorem stopAggregates_witness :
    runningApp.serveCaptured = true ∧ runningApp.started = true ∧
    (stopApp runningApp (some (.simple "shutdown failed")) (some (.simple "serve failed"))
        (some (.simple "terminate failed"))).1
      = .returned (goJoin2 (goJoin2 (some (.simple "shutdown failed"))
          (some (.simple "serve failed"))) (some (.simple "terminate failed"))) :=
  ⟨rfl, rfl,
   (stopAggregates runningApp rfl rfl (some (.simple "shutdown failed"))
     (some (.simple "serve failed")) (some (.simple "terminate failed"))).1⟩

/-- A successful bootstrap step returns the configuration with the runtime
pointers still unset. -/
theorem provisionAfterListen_ok (env : ProvisionEnv) (cfg st : App)
    (h : provision.provisionAfterListen env cfg = .ok st) :
    st = { cfg with serveCaptured := false, started := false } := by
  unfold provision.provisionAfterListen at h
  split at h
  · simp at h
  · injection h with h'
    exact h'.symm

/-- A successful listen-resolution step keeps the data directory and
either keeps a non-empty configured listen address or installs the
ephemeral loopback address. -/
theorem provisionAfterDataDir_ok (env : ProvisionEnv) (cfg st : App)
    (h : provision.provisionAfterDataDir env cfg = .ok st) :
    st.dataDir = cfg.dataDir ∧
    ((st.listen = cfg.listen ∧ cfg.listen ≠ "") ∨
      st.listen = "127.0.0.1:" ++ toString env.ephemeralPort) := by
  unfold provision.provisionAfterDataDir at h
  split at h
  · split at h
    · simp at h
    · have hst := provisionAfterListen_ok env _ st h
      subst hst
      exact ⟨rfl, .inr rfl⟩
  · rename_i hl
    have hst := provisionAfterListen_ok env _ st h
    subst hst
    exact ⟨rfl, .inl ⟨rfl, hl⟩⟩

/-- C8: after a successful `Provision` the resolved data directory and
listen address are non-empty, and neither `Start`, the `OnServe` hook, nor
`Stop` (in any outcome) modifies them. -/
theorem provisionNonEmptyImmutable (env : ProvisionEnv) (a st : App)
    (h : (provision env a).2 = .ok st) :
    st.dataDir ≠ "" ∧ st.listen ≠ "" ∧
    (startApp st).1.dataDir = st.dataDir ∧ (startApp st).1.listen = st.listen ∧
    (onServeFired (startApp st).1).dataDir = st.dataDir ∧
    (onServeFired (startApp st).1).listen = st.listen ∧
    ∀ e1 e2 e3 : Option GoErr,
      (stopApp (onServeFired (startApp st).1) e1 e2 e3).2.dataDir = st.dataDir ∧
      (stopApp (onServeFired (startApp st).1) e1 e2 e3).2.listen = st.listen := by
  have hne : st.dataDir ≠ "" ∧ st.listen ≠ "" := by
    unfold provision at h
    split at h
    · split at h
      · simp at h
      · replace h : provision.provisionAfterDataDir env
            { a with dataDir := joinPath env.storageRoot "pb_data" } = .ok st := h
        obtain ⟨hd, hl⟩ := provisionAfterDataDir_ok env _ st h
        refine ⟨?_, ?_⟩
        · rw [hd]
          exact joinPath_pbdata_ne_nil env.storageRoot
        · rcases hl with ⟨hl1, hl2⟩ | hl1
          · rw [hl1]; exact hl2
          · rw [hl1]; exact append_ne_nil_left _ _ (by decide)
    · rename_i hdd
      replace h : provision.provisionAfterDataDir env a = .ok st := h
      obtain ⟨hd, hl⟩ := provisionAfterDataDir_ok env _ st h
      refine ⟨?_, ?_⟩
      · rw [hd]; exact hdd
      · rcases hl with ⟨hl1, hl2⟩ | hl1
        · rw [hl1]; exact hl2
        · rw [hl1]; exact append_ne_nil_left _ _ (by decide)
  refine ⟨hne.1, hne.2, rfl, rfl, rfl, rfl, fun e1 e2 e3 => ?_⟩
  rw [stopApp_state]
  exact ⟨rfl, rfl⟩

/-- C8, witness: the theorem at the sample environment and the empty
configuration. -/
theorem provisionNonEmptyImmutable_witness :
    ((provision sampleProvisionEnv {}).2 = .ok provisionedApp) ∧
    provisionedApp.dataDir ≠ "" ∧ provisionedApp.listen ≠ "" :=
  ⟨rfl,
   (provisionNonEmptyImmutable sampleProvisionEnv {} provisionedApp rfl).1,
   (provisionNonEmptyImmutable sampleProvisionEnv {} provisionedApp rfl).2.1⟩

/-- C9: a request path whose `superuser` and `otp` segments differ from
the lower-case spelling only in letter case dispatches to the same
operation as the all-lower-case segments, with the same email argument. -/
theorem dispatchCaseInsensitive (p s1 email s3 : String)
    (h1 : strToLower s1 = "superuser") (h3 : strToLower s3 = "otp") :
    (pathParts p = [s1] → dispatchPath p = dispatchParts ["superuser"]) ∧
    (pathParts p = [s1, email, s3] →
      dispatchPath p = dispatchParts ["superuser", email, "otp"]) := by
  have e1 : eqFold s1 "superuser" = true := by
    simp [eqFold, h1, show strToLower "superuser" = "superuser" from by decide]
  have e3 : eqFold s3 "otp" = true := by
    simp [eqFold, h3, show strToLower "otp" = "otp" from by decide]
  constructor
  · intro hp
    unfold dispatchPath
    rw [hp]
    simp [dispatchParts, e1, show eqFold "superuser" "superuser" = true from by decide]
  · intro hp
    unfold dispatchPath
    rw [hp]
    simp [dispatchParts, e1, e3, show eqFold "superuser" "superuser" = true from by decide,
      show eqFold "otp" "otp" = true from by decide]

/-- C9, witness: the upper-case paths `/pocketbase/SUPERUSER` and
`/pocketbase/SUPERUSER/A@b.com/OTP` dispatch like their lower-case
spellings. -/
theorem dispatchCaseInsensitive_witness :
    strToLower "SUPERUSER" = "superuser" ∧
    dispatchPath "/pocketbase/SUPERUSER" = dispatchParts ["superuser"] ∧
    dispatchPath "/pocketbase/SUPERUSER/A@b.com/OTP"
      = dispatchParts ["superuser", "A@b.com", "otp"] :=
  ⟨by decide,
   (dispatchCaseInsensitive "/pocketbase/SUPERUSER" "SUPERUSER" "A@b.com" "OTP"
      (by decide) (by decide)).1 (by decide),
   (dispatchCaseInsensitive "/pocketbase/SUPERUSER/A@b.com/OTP" "SUPERUSER" "A@b.com" "OTP"
      (by decide) (by decide)).2 (by decide)⟩

/-- C10: `MkdirAll` is invoked exactly when the configured data directory
is empty — then on the derived default `storageRoot/pb_data` — and an
explicitly configured data directory is passed through to the resolved
state unchanged, with no creation attempt. -/
theorem provisionMkdirOnlyDefault (env : ProvisionEnv) (a : App) :
    (a.dataDir ≠ "" → (provision env a).1 = none ∧
      ∀ st : App, (provision env a).2 = .ok st → st.dataDir = a.dataDir) ∧
    (a.dataDir = "" → (provision env a).1 = some (joinPath env.storageRoot "pb_data")) := by
  constructor
  · intro hne
    constructor
    · unfold provision
      rw [if_neg hne]
    · intro st h
      unfold provision at h
      rw [if_neg hne] at h
      replace h : provision.provisionAfterDataDir env a = .ok st := h
      exact (provisionAfterDataDir_ok env a st h).1
  · intro he
    unfold provision
    rw [if_pos he]
    cases hm : env.mkdirErr
    · rfl
    · rfl

/-- C10, witness: the theorem at an explicitly configured directory and at
the empty default. -/
theorem provisionMkdirOnlyDefault_witness :
    (provision sampleProvisionEnv { dataDir := "/custom" }).1 = none ∧
    (provision sampleProvisionEnv {}).1 = some (joinPath "/var/lib/caddy" "pb_data") :=
  ⟨((provisionMkdirOnlyDefault sampleProvisionEnv { dataDir := "/custom" }).1 (by decide)).1,
   (provisionMkdirOnlyDefault sampleProvisionEnv {}).2 rfl⟩

end CaddyPocketbase
